import Mathlib

/-!
Shallow embedding of the height-conversion core of ellips2ortho_thai_app.py:
the raster point-interpolation engine `interpolate_raster` (lines 11-42) and
the per-row height conversion loop of `main` (lines 150-159).

Scalars are modelled as exact rationals, with an explicit NaN value; the
external scattered-data interpolation routine (scipy griddata, method cubic)
is modelled as a parameter of type `Interp`.
-/

namespace Ellips2OrthoThai

/-- A floating-point scalar, modelled as an exact rational or NaN. -/
inductive FVal where
  | num : ℚ → FVal
  | nan : FVal
deriving DecidableEq

/-- Subtraction of float scalars: NaN propagates. -/
def fsub : FVal → FVal → FVal
  | FVal.num a, FVal.num b => FVal.num (a - b)
  | _, _ => FVal.nan

/-- Addition of float scalars: NaN propagates. -/
def fadd : FVal → FVal → FVal
  | FVal.num a, FVal.num b => FVal.num (a + b)
  | _, _ => FVal.nan

/-- The entries of the affine geotransform that the code reads:
transform[0] (originX), transform[1] (pixelWidth), transform[3] (originY),
transform[5] (pixelHeight, typically negative). -/
structure GeoTransform where
  originX : ℚ
  pixelWidth : ℚ
  originY : ℚ
  pixelHeight : ℚ
deriving DecidableEq

/-- Band 1 of the geoid raster: geotransform, extent in cells, and the cell
values, indexed as cell row col. -/
structure Raster where
  transform : GeoTransform
  xSize : ℕ
  ySize : ℕ
  cell : ℕ → ℕ → FVal

/-- Failure outcomes of one interpolation query.

readError models the unguarded low-level failure of the raster read (GDAL
access window out of range, or invalid NaN offsets); the code does not catch
it, so it propagates as a crash.

outOfBoundsQuery is modelled from the spec: the explicit OutOfBoundsQuery
error of the spec error taxonomy, which the code itself never raises. -/
inductive InterpError where
  | readError
  | outOfBoundsQuery
deriving DecidableEq

/-- column = (lon - transform[0]) / transform[1], line 19. -/
def columnOf (t : GeoTransform) (lon : ℚ) : ℚ :=
  (lon - t.originX) / t.pixelWidth

/-- row = (lat - transform[3]) / transform[5], line 20. -/
def rowOf (t : GeoTransform) (lat : ℚ) : ℚ :=
  (lat - t.originY) / t.pixelHeight

/-- band.ReadAsArray(xoff, yoff, 5, 5), line 23: the 5 x 5 window of band 1 at
the given offsets, indexed window rowOffset colOffset. A window that is not
fully inside the raster extent makes the read fail; the code has no guard for
that, so the failure is the unguarded readError. -/
def readAsArray (r : Raster) (xoff yoff : ℤ) :
    Except InterpError (Fin 5 → Fin 5 → FVal) :=
  if 0 ≤ xoff ∧ 0 ≤ yoff ∧ xoff + 5 ≤ (r.xSize : ℤ) ∧ yoff + 5 ≤ (r.ySize : ℤ) then
    Except.ok (fun i j => r.cell (yoff + (i.val : ℤ)).toNat (xoff + (j.val : ℤ)).toNat)
  else
    Except.error InterpError.readError

/-- lon_c = transform[0] + floor(column) * res, line 24, with res the pixel
width. -/
def anchorLon (t : GeoTransform) (lon : ℚ) : ℚ :=
  t.originX + ⌊columnOf t lon⌋ * t.pixelWidth

/-- lat_c = transform[3] - floor(row) * res, line 25: the code uses res, the
pixel width, for the latitude axis as well. -/
def anchorLat (t : GeoTransform) (lat : ℚ) : ℚ :=
  t.originY - ⌊rowOf t lat⌋ * t.pixelWidth

/-- pos[count], lines 32-35: for count = (k+2)*5 + (j+2) with row offset k and
column offset j in [-2..2], the position (lon_c + j*res, lat_c - k*res). -/
def samplePos (lonc latc res : ℚ) (c : Fin 25) : ℚ × ℚ :=
  (lonc + (((c.val % 5 : ℕ) : ℚ) - 2) * res,
   latc - (((c.val / 5 : ℕ) : ℚ) - 2) * res)

/-- surround_data_v[count] = surround_data[k+2, j+2], line 36. -/
def sampleVal (w : Fin 5 → Fin 5 → FVal) (c : Fin 25) : FVal :=
  w ⟨c.val / 5, by have h := c.isLt; omega⟩ ⟨c.val % 5, by omega⟩

/-- Modelled from the spec: scipy.interpolate.griddata with method cubic is an
external library routine, described by the spec as scattered-data cubic
interpolation over the 25 (position, value) samples, evaluated at the query
point. It is kept as a parameter: a function from the sample positions, the
sample values and the query point to a float result. -/
def Interp : Type :=
  (Fin 25 → ℚ × ℚ) → (Fin 25 → FVal) → ℚ × ℚ → FVal

/-- Property the spec asserts of cubic interpolation: a constant family of
sample values is reproduced exactly. -/
def constantRecover (g : Interp) : Prop :=
  ∀ p v q x, (∀ c, v c = x) → g p v q = x

/-- interpolate_raster(f, lat, lon), lines 11-42. A NaN coordinate makes the
window offsets NaN, on which the raster read fails unguarded (readError).
griddata is the parameter g; the code returns interp_val[0], the value of g at
the query point (lon, lat). -/
def interpolate_raster (g : Interp) (r : Raster) (lat lon : FVal) :
    Except InterpError FVal :=
  match lat, lon with
  | FVal.num la, FVal.num lo =>
    match readAsArray r ⌊columnOf r.transform lo - 2⌋ ⌊rowOf r.transform la - 2⌋ with
    | Except.error e => Except.error e
    | Except.ok surround_data =>
        Except.ok (g (samplePos (anchorLon r.transform lo) (anchorLat r.transform la)
            r.transform.pixelWidth) (sampleVal surround_data) (lo, la))
  | _, _ => Except.error InterpError.readError

/-- The 5 x 5 window of a query lies fully inside the raster extent. -/
def windowInBounds (r : Raster) (la lo : ℚ) : Prop :=
  0 ≤ ⌊columnOf r.transform lo - 2⌋ ∧ 0 ≤ ⌊rowOf r.transform la - 2⌋ ∧
    ⌊columnOf r.transform lo - 2⌋ + 5 ≤ (r.xSize : ℤ) ∧
    ⌊rowOf r.transform la - 2⌋ + 5 ≤ (r.ySize : ℤ)

instance windowInBounds.instDecidable (r : Raster) (la lo : ℚ) :
    Decidable (windowInBounds r la lo) := by
  unfold windowInBounds; infer_instance

/-- One geotag row, as consumed by the conversion loop: latitude, longitude and
ellipsoidal height (la, lo, h in main). -/
structure Record where
  la : FVal
  lo : FVal
  h : FVal
deriving DecidableEq

/-- The height conversion loop of main, lines 150-156: sequentially per row,
N = interpolate_raster(f, la, lo) and ortho.append(h - N); an exception at any
row propagates out of the loop and no ortho list is produced at all. -/
def convertHeights (g : Interp) (r : Raster) :
    List Record → Except InterpError (List FVal)
  | [] => Except.ok []
  | p :: rest =>
    match interpolate_raster g r p.la p.lo with
    | Except.error e => Except.error e
    | Except.ok N =>
      match convertHeights g r rest with
      | Except.error e => Except.error e
      | Except.ok ortho => Except.ok (fsub p.h N :: ortho)

/-- A named dataframe column. -/
structure Column where
  name : String
  values : List FVal
deriving DecidableEq

/-- A pandas dataframe, as its list of named columns. -/
structure DataFrame where
  cols : List Column
deriving DecidableEq

/-- Default column used for out-of-range column indexing in statements. -/
def colDefault : Column := Column.mk "" []

/-- df.columns[i], lines 82-84. -/
def colNameAt (df : DataFrame) (i : ℕ) : String :=
  (df.cols.getD i colDefault).name

/-- df[n]: the series of the first column named n (the unique one when column
names are distinct). -/
def seriesOf (df : DataFrame) (n : String) : List FVal :=
  match df.cols.find? (fun c => c.name == n) with
  | some c => c.values
  | none => []

/-- zip(df[lat], df[lon], df[height]) as (la, lo, h) records, truncating to the
shortest series like the Python zip. -/
def zipRecords : List FVal → List FVal → List FVal → List Record
  | a :: as, b :: bs, c :: cs => Record.mk a b c :: zipRecords as bs cs
  | _, _, _ => []

/-- The new name given to the altitude column, line 159. -/
def newHeightName : String := "orthometric height TGM2017 [meters]"

/-- The per-dataframe conversion of main, lines 150-159: convert the heights
zipped from the series named df.columns[1], df.columns[2], df.columns[3], then
df[height] = ortho and the rename of the height column to newHeightName. -/
def convertDf (g : Interp) (r : Raster) (df : DataFrame) :
    Except InterpError DataFrame :=
  match convertHeights g r (zipRecords (seriesOf df (colNameAt df 1))
      (seriesOf df (colNameAt df 2)) (seriesOf df (colNameAt df 3))) with
  | Except.error e => Except.error e
  | Except.ok ortho =>
    Except.ok (DataFrame.mk (df.cols.map (fun c =>
      if c.name = colNameAt df 3 then Column.mk newHeightName ortho else c)))

/-! Helper lemmas shared by the claim proofs. -/

/-- Flooring after subtracting the integer 2 is flooring then subtracting 2,
so the read offset floor(column - 2) of line 23 equals floor(column) - 2. -/
lemma floor_sub_two (q : ℚ) : ⌊q - 2⌋ = ⌊q⌋ - 2 := by
  exact_mod_cast Int.floor_sub_int q 2

/-- For an in-bounds query, the raster read of line 23 succeeds and the window
cell at offsets (i, j) is the raster cell at row floor(row) - 2 + i and column
floor(column) - 2 + j. -/
lemma readAsArray_ok (r : Raster) (la lo : ℚ) (h : windowInBounds r la lo) :
    readAsArray r ⌊columnOf r.transform lo - 2⌋ ⌊rowOf r.transform la - 2⌋ =
      Except.ok (fun i j : Fin 5 =>
        r.cell (⌊rowOf r.transform la⌋ - 2 + (i.val : ℤ)).toNat
          (⌊columnOf r.transform lo⌋ - 2 + (j.val : ℤ)).toNat) := by
  unfold windowInBounds at h
  unfold readAsArray
  rw [if_pos h]
  congr 1
  funext i j
  rw [floor_sub_two, floor_sub_two]

/-- Unfolding interpolate_raster when the raster read succeeds. -/
lemma interpolate_raster_eq_ok (g : Interp) (r : Raster) (la lo : ℚ)
    (w : Fin 5 → Fin 5 → FVal)
    (hread : readAsArray r ⌊columnOf r.transform lo - 2⌋
        ⌊rowOf r.transform la - 2⌋ = Except.ok w) :
    interpolate_raster g r (FVal.num la) (FVal.num lo) =
      Except.ok (g (samplePos (anchorLon r.transform lo) (anchorLat r.transform la)
        r.transform.pixelWidth) (sampleVal w) (lo, la)) := by
  simp only [interpolate_raster]
  rw [hread]

/-! Concrete objects used to instantiate the theorems. -/

/-- A concrete interpolation routine for the griddata parameter in concrete
evaluations: it returns the first sample value, so it reproduces constant
sample families. -/
def gSample0 : Interp := fun _ v _ => v 0

/-- gSample0 reproduces constant sample families. -/
lemma gSample0_constantRecover : constantRecover gSample0 :=
  fun _ _ _ _ hv => hv 0

/-- A concrete interpolation routine that always yields NaN, as griddata does
on a degenerate neighborhood. -/
def gNan : Interp := fun _ _ _ => FVal.nan

/-- The raster of the concrete spec scenario: 10 x 10 grid, pixel size 0.01,
origin (100.0, 15.0), all cells 2.5. -/
def rDemo : Raster :=
  Raster.mk (GeoTransform.mk 100 (1/100) 15 (-1/100)) 10 10
    (fun _ _ => FVal.num (5/2))

/-- The spec scenario query: lat = 14.95, lon = 100.05, an interior point. -/
lemma windowInBounds_demo :
    windowInBounds rDemo (299/20) (2001/20) := by
  unfold windowInBounds columnOf rowOf rDemo
  norm_num

/-- Claim C2: for every query, with column = (lon - originX)/pixelWidth and
row = (lat - originY)/pixelHeight, the raster window read by interpolate is
exactly the fixed 5 x 5 subgrid spanning rows floor(row)-2 .. floor(row)+2 and
columns floor(column)-2 .. floor(column)+2 (25 cells of band 1), the window
centered on the grid cell containing the query point: for an in-bounds query,
interpolate evaluates the griddata parameter on exactly those cells, where the
window cell at offsets (i, j) is the raster cell in row floor(row) - 2 + i and
column floor(column) - 2 + j. -/
theorem c2_window_read (g : Interp) (r : Raster) (la lo : ℚ)
    (h : windowInBounds r la lo) :
    columnOf r.transform lo = (lo - r.transform.originX) / r.transform.pixelWidth ∧
    rowOf r.transform la = (la - r.transform.originY) / r.transform.pixelHeight ∧
    interpolate_raster g r (FVal.num la) (FVal.num lo) =
      Except.ok (g (samplePos (anchorLon r.transform lo) (anchorLat r.transform la)
        r.transform.pixelWidth)
        (sampleVal (fun i j : Fin 5 =>
          r.cell (⌊rowOf r.transform la⌋ - 2 + (i.val : ℤ)).toNat
            (⌊columnOf r.transform lo⌋ - 2 + (j.val : ℤ)).toNat))
        (lo, la)) :=
  ⟨rfl, rfl, interpolate_raster_eq_ok g r la lo _ (readAsArray_ok r la lo h)⟩

/-- Witness for claim C2 at the concrete spec scenario query. -/
theorem c2_witness :
    columnOf rDemo.transform (2001/20) =
      ((2001/20 : ℚ) - rDemo.transform.originX) / rDemo.transform.pixelWidth ∧
    rowOf rDemo.transform (299/20) =
      ((299/20 : ℚ) - rDemo.transform.originY) / rDemo.transform.pixelHeight ∧
    interpolate_raster gSample0 rDemo (FVal.num (299/20)) (FVal.num (2001/20)) =
      Except.ok (gSample0 (samplePos (anchorLon rDemo.transform (2001/20))
        (anchorLat rDemo.transform (299/20)) rDemo.transform.pixelWidth)
        (sampleVal (fun i j : Fin 5 =>
          rDemo.cell (⌊rowOf rDemo.transform (299/20)⌋ - 2 + (i.val : ℤ)).toNat
            (⌊columnOf rDemo.transform (2001/20)⌋ - 2 + (j.val : ℤ)).toNat))
        (2001/20, 299/20)) :=
  c2_window_read gSample0 rDemo (299/20) (2001/20) windowInBounds_demo

/-- Claim C3: for every query, interpolate computes the window anchor as
lon_c = originX + floor(column) * res and lat_c = originY - floor(row) * res,
using res (the pixel width) for both axes, and builds exactly 25 sample points
where, for each row offset k in [-2..2] and column offset j in [-2..2], the
position (lon_c + j*res, lat_c - k*res) at sample index (k+2)*5 + (j+2) is
paired with the window cell at index [k+2, j+2]. -/
theorem c3_sample_points (t : GeoTransform) (la lo : ℚ) (w : Fin 5 → Fin 5 → FVal)
    (k j : ℤ) (hk : -2 ≤ k ∧ k ≤ 2) (hj : -2 ≤ j ∧ j ≤ 2) :
    anchorLon t lo = t.originX + (⌊columnOf t lo⌋ : ℚ) * t.pixelWidth ∧
    anchorLat t la = t.originY - (⌊rowOf t la⌋ : ℚ) * t.pixelWidth ∧
    samplePos (anchorLon t lo) (anchorLat t la) t.pixelWidth
        ⟨((k + 2) * 5 + (j + 2)).toNat, by omega⟩ =
      (anchorLon t lo + (j : ℚ) * t.pixelWidth,
       anchorLat t la - (k : ℚ) * t.pixelWidth) ∧
    sampleVal w ⟨((k + 2) * 5 + (j + 2)).toNat, by omega⟩ =
      w ⟨(k + 2).toNat, by omega⟩ ⟨(j + 2).toNat, by omega⟩ := by
  have hmod : (((k + 2) * 5 + (j + 2)).toNat % 5 : ℕ) = (j + 2).toNat := by omega
  have hdiv : (((k + 2) * 5 + (j + 2)).toNat / 5 : ℕ) = (k + 2).toNat := by omega
  refine ⟨rfl, rfl, ?_, ?_⟩
  · unfold samplePos
    have h1 : ((((k + 2) * 5 + (j + 2)).toNat % 5 : ℕ) : ℚ) - 2 = (j : ℚ) := by
      rw [hmod]
      have h2 : (((j + 2).toNat : ℕ) : ℤ) = j + 2 := Int.toNat_of_nonneg (by omega)
      have h3 : (((j + 2).toNat : ℕ) : ℚ) = (j : ℚ) + 2 := by exact_mod_cast h2
      rw [h3]; ring
    have h4 : ((((k + 2) * 5 + (j + 2)).toNat / 5 : ℕ) : ℚ) - 2 = (k : ℚ) := by
      rw [hdiv]
      have h5 : (((k + 2).toNat : ℕ) : ℤ) = k + 2 := Int.toNat_of_nonneg (by omega)
      have h6 : (((k + 2).toNat : ℕ) : ℚ) = (k : ℚ) + 2 := by exact_mod_cast h5
      rw [h6]; ring
    rw [h1, h4]
  · unfold sampleVal
    congr 1
    · exact Fin.ext hdiv
    · exact Fin.ext hmod

/-- Witness for claim C3 at row offset k = 1, column offset j = -1 and a
concrete window: sample index (1+2)*5 + (-1+2) = 16 carries the position
(lon_c - res, lat_c - res) and the window cell [3, 1]. -/
theorem c3_witness :
    anchorLon rDemo.transform (2001/20) =
      rDemo.transform.originX +
        (⌊columnOf rDemo.transform (2001/20)⌋ : ℚ) * rDemo.transform.pixelWidth ∧
    anchorLat rDemo.transform (299/20) =
      rDemo.transform.originY -
        (⌊rowOf rDemo.transform (299/20)⌋ : ℚ) * rDemo.transform.pixelWidth ∧
    samplePos (anchorLon rDemo.transform (2001/20))
        (anchorLat rDemo.transform (299/20)) rDemo.transform.pixelWidth
        ⟨((1 + 2) * 5 + (-1 + 2) : ℤ).toNat, by omega⟩ =
      (anchorLon rDemo.transform (2001/20) +
        ((-1 : ℤ) : ℚ) * rDemo.transform.pixelWidth,
       anchorLat rDemo.transform (299/20) -
        ((1 : ℤ) : ℚ) * rDemo.transform.pixelWidth) ∧
    sampleVal (fun i j : Fin 5 => rDemo.cell i.val j.val)
        ⟨((1 + 2) * 5 + (-1 + 2) : ℤ).toNat, by omega⟩ =
      (fun i j : Fin 5 => rDemo.cell i.val j.val)
        ⟨((1 : ℤ) + 2).toNat, by omega⟩ ⟨((-1 : ℤ) + 2).toNat, by omega⟩ :=
  c3_sample_points rDemo.transform (299/20) (2001/20)
    (fun i j : Fin 5 => rDemo.cell i.val j.val) 1 (-1) (by omega) (by omega)

/-- The raster read at the scenario query succeeds with offsets (3, 3). -/
lemma readAsArray_demo :
    readAsArray rDemo ⌊columnOf rDemo.transform (2001/20) - 2⌋
      ⌊rowOf rDemo.transform (299/20) - 2⌋ =
      Except.ok (fun i j : Fin 5 =>
        rDemo.cell (⌊rowOf rDemo.transform (299/20)⌋ - 2 + (i.val : ℤ)).toNat
          (⌊columnOf rDemo.transform (2001/20)⌋ - 2 + (j.val : ℤ)).toNat) :=
  readAsArray_ok rDemo (299/20) (2001/20) windowInBounds_demo

/-- Value of the scenario interpolation under gSample0: the first sample value
of the all-2.5 raster. -/
lemma interp_demo_sample0 :
    interpolate_raster gSample0 rDemo (FVal.num (299/20)) (FVal.num (2001/20)) =
      Except.ok (FVal.num (5/2)) := by
  rw [interpolate_raster_eq_ok gSample0 rDemo (299/20) (2001/20) _
    readAsArray_demo]
  rfl

/-- Claim C8 as stated, at one query result: either a value was produced (a
clamped or padded window) or the explicit OutOfBoundsQuery error of the spec
taxonomy was raised. -/
def clampedOrExplicit (res : Except InterpError FVal) : Prop :=
  (∃ v, res = Except.ok v) ∨ res = Except.error InterpError.outOfBoundsQuery

/-- Counterexample to claim C8: the near-edge query lat = 14.995, lon =
100.005 on the scenario raster lies within 2 cells of the raster edge; the
code neither clamps nor raises an explicit OutOfBoundsQuery: the unguarded
raster read fails, and the failure propagates as an uncaught crash. -/
theorem c8_counterexample :
    ¬ clampedOrExplicit (interpolate_raster gSample0 rDemo
      (FVal.num (2999/200)) (FVal.num (20001/200))) := by
  have hni : ¬ windowInBounds rDemo (2999/200) (20001/200) := by
    unfold windowInBounds columnOf rowOf rDemo
    norm_num
  have heq : interpolate_raster gSample0 rDemo
      (FVal.num (2999/200)) (FVal.num (20001/200)) =
      Except.error InterpError.readError := by
    simp only [interpolate_raster]
    unfold readAsArray
    rw [if_neg (by unfold windowInBounds at hni; exact hni)]
  rw [heq]
  intro hcl
  rcases hcl with ⟨v, hv⟩ | hv <;> simp at hv

/-- Claim C8 amended: the code performs no bounds handling at all: for every
query whose 5 x 5 window extends past the raster extent, the unguarded raster
read fails and interpolate propagates that failure (an uncaught crash), with
no clamping and no explicit OutOfBoundsQuery error. -/
theorem c8_unguarded_read (g : Interp) (r : Raster) (la lo : ℚ)
    (h : ¬ windowInBounds r la lo) :
    interpolate_raster g r (FVal.num la) (FVal.num lo) =
      Except.error InterpError.readError := by
  simp only [interpolate_raster]
  unfold readAsArray
  rw [if_neg (by unfold windowInBounds at h; exact h)]

/-- Witness for the amended claim C8 at the concrete near-edge query. -/
theorem c8_witness :
    interpolate_raster gNan rDemo (FVal.num (2999/200)) (FVal.num (20001/200)) =
      Except.error InterpError.readError :=
  c8_unguarded_read gNan rDemo (2999/200) (20001/200) (by
    unfold windowInBounds columnOf rowOf rDemo
    norm_num)

/-- Claim C6: when the 25-point cubic interpolation yields no finite value
(NaN), interpolate returns NaN rather than failing or substituting zero or the
raw height, and the downstream height subtraction propagates that NaN into the
output for that record. -/
theorem c6_nan_propagation (g : Interp) (r : Raster) (la lo : ℚ)
    (w : Fin 5 → Fin 5 → FVal)
    (hread : readAsArray r ⌊columnOf r.transform lo - 2⌋
        ⌊rowOf r.transform la - 2⌋ = Except.ok w)
    (hnan : g (samplePos (anchorLon r.transform lo) (anchorLat r.transform la)
        r.transform.pixelWidth) (sampleVal w) (lo, la) = FVal.nan) :
    interpolate_raster g r (FVal.num la) (FVal.num lo) = Except.ok FVal.nan ∧
    ∀ h : FVal, fsub h FVal.nan = FVal.nan := by
  constructor
  · rw [interpolate_raster_eq_ok g r la lo w hread, hnan]
  · intro h; cases h <;> rfl

/-- Witness for claim C6: the always-NaN interpolation at the scenario query
makes interpolate return NaN, and subtracting it from the height 102.5 gives
NaN. -/
theorem c6_witness :
    interpolate_raster gNan rDemo (FVal.num (299/20)) (FVal.num (2001/20)) =
      Except.ok FVal.nan ∧
    fsub (FVal.num (205/2)) FVal.nan = FVal.nan := by
  have h := c6_nan_propagation gNan rDemo (299/20) (2001/20) _
    readAsArray_demo rfl
  exact ⟨h.1, h.2 (FVal.num (205/2))⟩

/-- Counterexample to claim C5 as universally stated: at a query where the
interpolation yields NaN (which claim C6 requires to propagate), subtracting
and then adding back the interpolated undulation yields NaN, not the original
ellipsoidal height. -/
theorem c5_counterexample :
    interpolate_raster gNan rDemo (FVal.num (299/20)) (FVal.num (2001/20)) =
      Except.ok FVal.nan ∧
    fadd (fsub (FVal.num (205/2)) FVal.nan) FVal.nan ≠ FVal.num (205/2) := by
  constructor
  · rw [interpolate_raster_eq_ok gNan rDemo (299/20) (2001/20) _
      readAsArray_demo]
    rfl
  · decide

/-- Claim C5 amended: the round trip holds whenever the interpolated
undulation is a finite numeric value and the height is numeric; with exact
arithmetic, (h - N) + N = h given the same raster and coordinate. -/
theorem c5_roundtrip (g : Interp) (r : Raster) (lat lon : FVal) (N hq : ℚ)
    (_hN : interpolate_raster g r lat lon = Except.ok (FVal.num N)) :
    fadd (fsub (FVal.num hq) (FVal.num N)) (FVal.num N) = FVal.num hq := by
  show FVal.num (hq - N + N) = FVal.num hq
  have harith : hq - N + N = hq := by ring
  rw [harith]

/-- Witness for the amended claim C5 at the concrete scenario: height 102.5,
undulation 2.5, round trip returns 102.5. -/
theorem c5_witness :
    fadd (fsub (FVal.num (205/2)) (FVal.num (5/2))) (FVal.num (5/2)) =
      FVal.num (205/2) :=
  c5_roundtrip gSample0 rDemo (FVal.num (299/20)) (FVal.num (2001/20))
    (5/2) (205/2) interp_demo_sample0

/-- Claim C1: for every raster whose cells all hold the same constant value V,
interpolate returns exactly V for any interior query point, for every
interpolation routine that reproduces constant sample families (which the spec
asserts of cubic interpolation); and subtracting the result converts an
ellipsoidal height eh to eh - V. -/
theorem c1_constant_raster (g : Interp) (r : Raster) (V : ℚ) (la lo : ℚ)
    (hg : constantRecover g)
    (hconst : ∀ i j : ℕ, i < r.ySize → j < r.xSize → r.cell i j = FVal.num V)
    (hin : windowInBounds r la lo) :
    interpolate_raster g r (FVal.num la) (FVal.num lo) =
      Except.ok (FVal.num V) ∧
    ∀ eh : ℚ, fsub (FVal.num eh) (FVal.num V) = FVal.num (eh - V) := by
  constructor
  · rw [interpolate_raster_eq_ok g r la lo _ (readAsArray_ok r la lo hin)]
    congr 1
    apply hg
    intro c
    obtain ⟨h1, h2, h3, h4⟩ := hin
    have hc := c.isLt
    have e1 : ⌊columnOf r.transform lo - 2⌋ = ⌊columnOf r.transform lo⌋ - 2 :=
      floor_sub_two _
    have e2 : ⌊rowOf r.transform la - 2⌋ = ⌊rowOf r.transform la⌋ - 2 :=
      floor_sub_two _
    unfold sampleVal
    apply hconst
    · have hlt : (c.val / 5 : ℕ) < 5 := by omega
      omega
    · have hlt : (c.val % 5 : ℕ) < 5 := by omega
      omega
  · intro eh; rfl

/-- Witness for claim C1 at the concrete spec scenario: 10 x 10 raster, pixel
size 0.01, origin (100.0, 15.0), all cells 2.5, query (lat = 14.95,
lon = 100.05): interpolate returns 2.5 and converting the ellipsoidal height
102.5 yields the orthometric height 100.0. -/
theorem c1_witness :
    interpolate_raster gSample0 rDemo (FVal.num (299/20)) (FVal.num (2001/20)) =
      Except.ok (FVal.num (5/2)) ∧
    fsub (FVal.num (205/2)) (FVal.num (5/2)) = FVal.num 100 := by
  have h := c1_constant_raster gSample0 rDemo (5/2) (299/20) (2001/20)
    gSample0_constantRecover (fun _ _ _ _ => rfl) windowInBounds_demo
  refine ⟨h.1, ?_⟩
  have h2 := h.2 (205/2)
  rw [show (205/2 - 5/2 : ℚ) = 100 by norm_num] at h2
  exact h2

/-- Default record used for out-of-range list indexing in statements. -/
def recDefault : Record := Record.mk FVal.nan FVal.nan FVal.nan

/-- The scenario record: query (lat = 14.95, lon = 100.05), ellipsoidal height
102.5. -/
def recDemo : Record :=
  Record.mk (FVal.num (299/20)) (FVal.num (2001/20)) (FVal.num (205/2))

/-- A record with NaN latitude, as produced by missing coordinates. -/
def recBad : Record := Record.mk FVal.nan (FVal.num (2001/20)) (FVal.num (205/2))

/-- A successful conversion produces one output per input record. -/
lemma convertHeights_ok_length (g : Interp) (r : Raster) (recs : List Record) :
    ∀ out, convertHeights g r recs = Except.ok out → out.length = recs.length := by
  induction recs with
  | nil =>
    intro out h
    simp only [convertHeights] at h
    cases h
    rfl
  | cons p rest ih =>
    intro out h
    simp only [convertHeights] at h
    cases hN : interpolate_raster g r p.la p.lo with
    | error e => rw [hN] at h; cases h
    | ok N =>
      rw [hN] at h
      cases hrest : convertHeights g r rest with
      | error e => rw [hrest] at h; cases h
      | ok ortho =>
        rw [hrest] at h
        cases h
        simp [ih ortho hrest]

/-- Evaluation of the single-record scenario batch. -/
lemma convert_demo_eval :
    convertHeights gSample0 rDemo [recDemo] = Except.ok [FVal.num 100] := by
  have hla : recDemo.la = FVal.num (299/20) := rfl
  have hlo : recDemo.lo = FVal.num (2001/20) := rfl
  simp only [convertHeights, hla, hlo, interp_demo_sample0]
  show Except.ok [fsub recDemo.h (FVal.num (5/2))] = Except.ok [FVal.num 100]
  have hh : fsub recDemo.h (FVal.num (5/2)) = FVal.num (205/2 - 5/2) := rfl
  rw [hh, show (205/2 - 5/2 : ℚ) = 100 by norm_num]

/-- Claim C4: for every input record (lat, lon, ellipsoidal_height) in a
batch, the produced output value equals ellipsoidal_height -
interpolate(raster, lat, lon), applied independently per row: the output at
index i is a function of the record at index i alone, with no state carried
between rows. -/
theorem c4_per_row (g : Interp) (r : Raster) (recs : List Record)
    (out : List FVal) (hok : convertHeights g r recs = Except.ok out) :
    out.length = recs.length ∧
    ∀ i, i < recs.length →
      ∃ N, interpolate_raster g r (recs.getD i recDefault).la
            (recs.getD i recDefault).lo = Except.ok N ∧
        out.getD i FVal.nan = fsub (recs.getD i recDefault).h N := by
  induction recs generalizing out with
  | nil =>
    simp only [convertHeights] at hok
    cases hok
    exact ⟨rfl, fun i hi => absurd hi (by simp)⟩
  | cons p rest ih =>
    simp only [convertHeights] at hok
    cases hN : interpolate_raster g r p.la p.lo with
    | error e => rw [hN] at hok; cases hok
    | ok N =>
      rw [hN] at hok
      cases hrest : convertHeights g r rest with
      | error e => rw [hrest] at hok; cases hok
      | ok ortho =>
        rw [hrest] at hok
        cases hok
        obtain ⟨ih1, ih2⟩ := ih ortho hrest
        refine ⟨by simp [ih1], ?_⟩
        intro i hi
        cases i with
        | zero => exact ⟨N, by simpa using hN, by simp⟩
        | succ i2 =>
          simp only [List.getD_cons_succ]
          exact ih2 i2 (by simpa using hi)

/-- Witness for claim C4 at the single-record scenario batch: the output is
102.5 - 2.5 = 100, computed from that record alone. -/
theorem c4_witness :
    ([FVal.num 100] : List FVal).length = ([recDemo] : List Record).length ∧
    interpolate_raster gSample0 rDemo ([recDemo].getD 0 recDefault).la
        ([recDemo].getD 0 recDefault).lo = Except.ok (FVal.num (5/2)) ∧
    ([FVal.num 100] : List FVal).getD 0 FVal.nan =
      fsub ([recDemo].getD 0 recDefault).h (FVal.num (5/2)) := by
  have h := c4_per_row gSample0 rDemo [recDemo] [FVal.num 100]
    convert_demo_eval
  obtain ⟨N, hN, hout⟩ := h.2 0 (by simp)
  have hN5 : N = FVal.num (5/2) := by
    have h2 : ([recDemo].getD 0 recDefault).la = FVal.num (299/20) := rfl
    have h3 : ([recDemo].getD 0 recDefault).lo = FVal.num (2001/20) := rfl
    rw [h2, h3, interp_demo_sample0] at hN
    exact (Except.ok.inj hN).symm
  subst hN5
  exact ⟨h.1, hN, hout⟩

/-- Whether a conversion outcome is a produced value rather than a propagated
error. -/
def isOkResult {α : Type} : Except InterpError α → Bool
  | Except.ok _ => true
  | Except.error _ => false

/-- A failing record anywhere in the batch makes the whole conversion loop
fail: the unguarded exception aborts the loop. -/
lemma convertHeights_fails_of_mem (g : Interp) (r : Raster) (p : Record)
    (hfail : interpolate_raster g r p.la p.lo = Except.error InterpError.readError) :
    ∀ recs : List Record, p ∈ recs →
      isOkResult (convertHeights g r recs) = false := by
  intro recs
  induction recs with
  | nil => intro hp; cases hp
  | cons q rest ih =>
    intro hp
    simp only [convertHeights]
    cases hq : interpolate_raster g r q.la q.lo with
    | error e => rfl
    | ok N =>
      rcases List.mem_cons.mp hp with heq | hmem
      · rw [← heq] at hq
        rw [hfail] at hq
        cases hq
      · have hrec := ih hmem
        cases hrest : convertHeights g r rest with
        | error e => rfl
        | ok l =>
          rw [hrest] at hrec
          simp [isOkResult] at hrec

/-- Claim C7 at a concrete batch: whether the conversion loop produced any
output list at all. -/
def batchProduced (res : Except InterpError (List FVal)) : Prop :=
  ∃ out, res = Except.ok out

/-- Counterexample to claim C7: in the two-record batch whose first record has
NaN latitude, the loop aborts with the unguarded read failure and produces no
output at all, even though the second record on its own converts to a valid
result. The claim that the other records still produce valid results fails. -/
theorem c7_counterexample :
    ¬ batchProduced (convertHeights gSample0 rDemo [recBad, recDemo]) ∧
    convertHeights gSample0 rDemo [recDemo] = Except.ok [FVal.num 100] := by
  constructor
  · intro hout
    obtain ⟨out, hout⟩ := hout
    have habort : convertHeights gSample0 rDemo [recBad, recDemo] =
        Except.error InterpError.readError := rfl
    rw [habort] at hout
    cases hout
  · exact convert_demo_eval

/-- Claim C7 amended: a record with NaN (missing) coordinates makes its
interpolation fail with the unguarded read error, and any such per-record
failure aborts the entire batch: the loop produces no output for any record,
including the valid ones. -/
theorem c7_batch_abort (g : Interp) (r : Raster) (recs : List Record)
    (p : Record) (hp : p ∈ recs) (hnan : p.la = FVal.nan ∨ p.lo = FVal.nan) :
    interpolate_raster g r p.la p.lo = Except.error InterpError.readError ∧
    isOkResult (convertHeights g r recs) = false := by
  have hfail : interpolate_raster g r p.la p.lo =
      Except.error InterpError.readError := by
    rcases hnan with h1 | h1 <;> rw [h1]
    · cases p.lo <;> rfl
    · cases p.la <;> rfl
  exact ⟨hfail, convertHeights_fails_of_mem g r p hfail recs hp⟩

/-- Witness for the amended claim C7 at the concrete two-record batch. -/
theorem c7_witness :
    interpolate_raster gSample0 rDemo recBad.la recBad.lo =
      Except.error InterpError.readError ∧
    isOkResult (convertHeights gSample0 rDemo [recBad, recDemo]) = false :=
  c7_batch_abort gSample0 rDemo [recBad, recDemo] recBad
    (List.mem_cons_self _ _) (Or.inl rfl)

/-- Claim C9: interpolate is a pure function of the raster contents and the
query coordinate: two calls with the same geotransform, the same extent and
the same in-extent cell values return the same value, and the embedding is a
function, so a call mutates nothing. -/
theorem c9_pure_function (g : Interp) (r1 r2 : Raster) (lat lon : FVal)
    (ht : r1.transform = r2.transform) (hx : r1.xSize = r2.xSize)
    (hy : r1.ySize = r2.ySize)
    (hcell : ∀ i j : ℕ, i < r1.ySize → j < r1.xSize → r1.cell i j = r2.cell i j) :
    interpolate_raster g r1 lat lon = interpolate_raster g r2 lat lon := by
  cases lat with
  | nan => cases lon <;> rfl
  | num la =>
    cases lon with
    | nan => rfl
    | num lo =>
      simp only [interpolate_raster]
      rw [← ht]
      unfold readAsArray
      rw [← hx, ← hy]
      by_cases hb : 0 ≤ ⌊columnOf r1.transform lo - 2⌋ ∧
          0 ≤ ⌊rowOf r1.transform la - 2⌋ ∧
          ⌊columnOf r1.transform lo - 2⌋ + 5 ≤ (r1.xSize : ℤ) ∧
          ⌊rowOf r1.transform la - 2⌋ + 5 ≤ (r1.ySize : ℤ)
      · rw [if_pos hb, if_pos hb]
        have hw : (fun i j : Fin 5 =>
              r1.cell (⌊rowOf r1.transform la - 2⌋ + (i.val : ℤ)).toNat
                (⌊columnOf r1.transform lo - 2⌋ + (j.val : ℤ)).toNat) =
            (fun i j : Fin 5 =>
              r2.cell (⌊rowOf r1.transform la - 2⌋ + (i.val : ℤ)).toNat
                (⌊columnOf r1.transform lo - 2⌋ + (j.val : ℤ)).toNat) := by
          funext i j
          obtain ⟨b1, b2, b3, b4⟩ := hb
          apply hcell
          · have hi := i.isLt; omega
          · have hj := j.isLt; omega
        rw [hw]
      · rw [if_neg hb, if_neg hb]

/-- The scenario raster with different cell values outside the 10 x 10 extent
only. -/
def rVariant : Raster :=
  Raster.mk (GeoTransform.mk 100 (1/100) 15 (-1/100)) 10 10
    (fun i j => if i < 10 ∧ j < 10 then FVal.num (5/2) else FVal.num 0)

/-- Witness for claim C9: the scenario raster and its out-of-extent variant
give identical interpolation results at the scenario query. -/
theorem c9_witness :
    interpolate_raster gSample0 rDemo (FVal.num (299/20)) (FVal.num (2001/20)) =
      interpolate_raster gSample0 rVariant (FVal.num (299/20)) (FVal.num (2001/20)) :=
  c9_pure_function gSample0 rDemo rVariant _ _ rfl rfl rfl
    (fun i j hi hj => by
      show FVal.num (5/2) = (if i < 10 ∧ j < 10 then FVal.num (5/2) else FVal.num 0)
      rw [if_pos ⟨hi, hj⟩])

/-- Length of the zipped record list: the minimum of the three series
lengths, as for the Python zip. -/
lemma zipRecords_length (as bs cs : List FVal) :
    (zipRecords as bs cs).length = min (min as.length bs.length) cs.length := by
  induction as generalizing bs cs with
  | nil => cases bs <;> cases cs <;> simp [zipRecords]
  | cons a as ih =>
    cases bs with
    | nil => simp [zipRecords]
    | cons b bs =>
      cases cs with
      | nil => simp [zipRecords]
      | cons c cs =>
        simp only [zipRecords, List.length_cons, ih]
        omega

/-- With distinct column names, find? on the name of the column at index i
returns exactly the column at index i. -/
lemma find?_name_at (l : List Column) :
    ∀ i, i < l.length → (l.map Column.name).Nodup →
      l.find? (fun c => c.name == (l.getD i colDefault).name) =
        some (l.getD i colDefault) := by
  induction l with
  | nil => intro i hi _; simp at hi
  | cons a l ih =>
    intro i hi hnd
    cases i with
    | zero =>
      simp only [List.getD_cons_zero]
      exact List.find?_cons_of_pos l (beq_self_eq_true a.name)
    | succ i2 =>
      have hi2 : i2 < l.length := by
        simp only [List.length_cons] at hi; omega
      have hmem : l.getD i2 colDefault ∈ l := by
        rw [List.getD_eq_getElem l colDefault hi2]
        exact List.getElem_mem hi2
      have hanot : a.name ∉ l.map Column.name := (List.nodup_cons.mp hnd).1
      have hne : ¬ ((fun c => c.name == (((a :: l).getD (i2 + 1) colDefault)).name) a = true) := by
        simp only [List.getD_cons_succ, beq_iff_eq]
        intro hcontr
        exact hanot (hcontr ▸ List.mem_map_of_mem Column.name hmem)
      rw [List.find?_cons_of_neg l hne]
      simp only [List.getD_cons_succ]
      exact ih i2 hi2 (List.nodup_cons.mp hnd).2

/-- With distinct column names and index i in range, the series selected by
the name of column i is the values of column i. -/
lemma seriesOf_at (df : DataFrame) (i : ℕ) (hi : i < df.cols.length)
    (hnd : (df.cols.map Column.name).Nodup) :
    seriesOf df (colNameAt df i) = (df.cols.getD i colDefault).values := by
  unfold seriesOf colNameAt
  rw [find?_name_at df.cols i hi hnd]

/-- Claim C10: for every uploaded dataframe (with its 4th column in range,
distinct column names, and n rows in every column), a successful
height-conversion step replaces only the fourth column, renaming it to
"orthometric height TGM2017 [meters]"; every other column is left unchanged
value for value, and the output has exactly as many rows as the input. -/
theorem c10_frame (g : Interp) (r : Raster) (df df2 : DataFrame) (n : ℕ)
    (h4 : 4 ≤ df.cols.length)
    (hnd : (df.cols.map Column.name).Nodup)
    (hlen : ∀ c ∈ df.cols, c.values.length = n)
    (hok : convertDf g r df = Except.ok df2) :
    df2.cols.length = df.cols.length ∧
    (∀ j, j < df.cols.length → j ≠ 3 →
      df2.cols.getD j colDefault = df.cols.getD j colDefault) ∧
    (df2.cols.getD 3 colDefault).name = newHeightName ∧
    ∀ c ∈ df2.cols, c.values.length = n := by
  simp only [convertDf] at hok
  cases hortho : convertHeights g r (zipRecords (seriesOf df (colNameAt df 1))
      (seriesOf df (colNameAt df 2)) (seriesOf df (colNameAt df 3))) with
  | error e => rw [hortho] at hok; cases hok
  | ok ortho =>
    rw [hortho] at hok
    cases hok
    have h1lt : 1 < df.cols.length := by omega
    have h2lt : 2 < df.cols.length := by omega
    have h3lt : 3 < df.cols.length := by omega
    have hnlen : ortho.length = n := by
      have hzl := convertHeights_ok_length g r _ ortho hortho
      rw [zipRecords_length, seriesOf_at df 1 h1lt hnd, seriesOf_at df 2 h2lt hnd,
        seriesOf_at df 3 h3lt hnd] at hzl
      have e1 : (df.cols.getD 1 colDefault).values.length = n := by
        apply hlen
        rw [List.getD_eq_getElem df.cols colDefault h1lt]
        exact List.getElem_mem h1lt
      have e2 : (df.cols.getD 2 colDefault).values.length = n := by
        apply hlen
        rw [List.getD_eq_getElem df.cols colDefault h2lt]
        exact List.getElem_mem h2lt
      have e3 : (df.cols.getD 3 colDefault).values.length = n := by
        apply hlen
        rw [List.getD_eq_getElem df.cols colDefault h3lt]
        exact List.getElem_mem h3lt
      rw [e1, e2, e3] at hzl
      simpa using hzl
    have hname : ∀ j, j < df.cols.length → j ≠ 3 →
        ¬ ((df.cols.getD j colDefault).name = colNameAt df 3) := by
      intro j hj hne hcontr
      unfold colNameAt at hcontr
      have hj2 : j < (df.cols.map Column.name).length := by simpa using hj
      have h32 : 3 < (df.cols.map Column.name).length := by simpa using h3lt
      have hget : (df.cols.map Column.name).get ⟨j, hj2⟩ =
          (df.cols.map Column.name).get ⟨3, h32⟩ := by
        simp only [List.get_eq_getElem, List.getElem_map]
        rw [← List.getD_eq_getElem df.cols colDefault hj,
          ← List.getD_eq_getElem df.cols colDefault h3lt]
        exact hcontr
      have hfin := (List.Nodup.get_inj_iff hnd).mp hget
      exact hne (congrArg Fin.val hfin)
    refine ⟨by simp, ?_, ?_, ?_⟩
    · intro j hj hne
      have hj2 : j < (df.cols.map (fun c =>
          if c.name = colNameAt df 3 then Column.mk newHeightName ortho
          else c)).length := by simpa using hj
      show (df.cols.map (fun c =>
          if c.name = colNameAt df 3 then Column.mk newHeightName ortho
          else c)).getD j colDefault = df.cols.getD j colDefault
      rw [List.getD_eq_getElem _ colDefault hj2, List.getElem_map,
        ← List.getD_eq_getElem df.cols colDefault hj]
      rw [if_neg (hname j hj hne)]
    · have h32 : 3 < (df.cols.map (fun c =>
          if c.name = colNameAt df 3 then Column.mk newHeightName ortho
          else c)).length := by simpa using h3lt
      show ((df.cols.map (fun c =>
          if c.name = colNameAt df 3 then Column.mk newHeightName ortho
          else c)).getD 3 colDefault).name = newHeightName
      rw [List.getD_eq_getElem _ colDefault h32, List.getElem_map,
        ← List.getD_eq_getElem df.cols colDefault h3lt]
      rw [if_pos (show (df.cols.getD 3 colDefault).name = colNameAt df 3 from rfl)]
    · intro c hc
      simp only [List.mem_map] at hc
      obtain ⟨c0, hc0, hfc⟩ := hc
      by_cases hname0 : c0.name = colNameAt df 3
      · rw [if_pos hname0] at hfc
        rw [← hfc]
        simpa using hnlen
      · rw [if_neg hname0] at hfc
        rw [← hfc]
        exact hlen c0 hc0

/-- A concrete one-row geotags dataframe in the format the app checks for. -/
def dfDemo : DataFrame :=
  DataFrame.mk
    [Column.mk "# image name" [FVal.num 0],
     Column.mk "latitude [decimal degrees]" [FVal.num (299/20)],
     Column.mk "longitude [decimal degrees]" [FVal.num (2001/20)],
     Column.mk "altitude [meter]" [FVal.num (205/2)],
     Column.mk "accuracy horizontal [meter]" [FVal.num 1],
     Column.mk "accuracy vertical [meter]" [FVal.num 2]]

/-- dfDemo after the conversion step: only the altitude column changed. -/
def dfConverted : DataFrame :=
  DataFrame.mk
    [Column.mk "# image name" [FVal.num 0],
     Column.mk "latitude [decimal degrees]" [FVal.num (299/20)],
     Column.mk "longitude [decimal degrees]" [FVal.num (2001/20)],
     Column.mk newHeightName [FVal.num 100],
     Column.mk "accuracy horizontal [meter]" [FVal.num 1],
     Column.mk "accuracy vertical [meter]" [FVal.num 2]]

/-- Evaluation of the dataframe conversion on the concrete dataframe. -/
lemma convertDf_demo_eval :
    convertDf gSample0 rDemo dfDemo = Except.ok dfConverted := by
  have hz : zipRecords (seriesOf dfDemo (colNameAt dfDemo 1))
      (seriesOf dfDemo (colNameAt dfDemo 2))
      (seriesOf dfDemo (colNameAt dfDemo 3)) = [recDemo] := rfl
  simp only [convertDf]
  rw [hz, convert_demo_eval]
  rfl

/-- Witness for claim C10 on the concrete dataframe: six columns in and out,
the latitude column untouched, the fourth column renamed, one row out. -/
theorem c10_witness :
    dfConverted.cols.length = dfDemo.cols.length ∧
    dfConverted.cols.getD 1 colDefault = dfDemo.cols.getD 1 colDefault ∧
    (dfConverted.cols.getD 3 colDefault).name = newHeightName ∧
    (dfConverted.cols.getD 3 colDefault).values.length = 1 := by
  have h := c10_frame gSample0 rDemo dfDemo dfConverted 1
    (by decide) (by decide) (by decide) convertDf_demo_eval
  have hmem : dfConverted.cols.getD 3 colDefault ∈ dfConverted.cols := by
    show Column.mk newHeightName [FVal.num 100] ∈ dfConverted.cols
    simp [dfConverted]
  exact ⟨h.1, h.2.1 1 (by decide) (by decide), h.2.2.1, h.2.2.2 _ hmem⟩

end Ellips2OrthoThai
